import Mathlib

/-!
Shallow embedding of the react-native-momentum-carousel component
(src/CarouselMomentum.tsx, current revision, and src/useLayoutAnimation.ts).

Numbers: pixel offsets and widths are rationals, indices are integers.
JS integer remainder is truncated remainder (Int.tmod); JS Math.round is
floor of x + 1/2 (round half toward positive infinity).

The component state tracks the pieces of mutable state of one mounted
CarouselMomentum instance: the currentIndex React state, the autoplayRef
interval handle, the set of interval timers that have been created and not
yet cleared (to express the at-most-one-live-timer invariant), and the
observable history of onSnap invocations and scrollToOffset requests.
-/

namespace Carousel

/-- JS Math.round: round half toward positive infinity. -/
def jsRound (q : ℚ) : ℤ := ⌊q + 1/2⌋

/-- The JS remainder operator on integers: truncated-division remainder,
taking the sign of the dividend. -/
def jsMod (a b : ℤ) : ℤ := Int.tmod a b

/-- Configuration of one mounted carousel: props that the modelled
operations read.  refReady models whether flatListRef.current is non-null. -/
structure Config where
  length : ℕ
  itemWidth : ℚ
  loop : Bool
  refReady : Bool
  deriving DecidableEq

/-- Mutable state of one mounted carousel plus its observable event history. -/
structure State where
  currentIndex : ℤ
  autoplayRef : Option ℕ
  liveTimers : List ℕ
  nextHandle : ℕ
  snaps : List ℤ
  scrollRequests : List ℚ
  deriving DecidableEq

/-- Initial state: useState(0), autoplayRef.current null, no timers, no history. -/
def initState : State :=
  { currentIndex := 0
    autoplayRef := none
    liveTimers := []
    nextHandle := 0
    snaps := []
    scrollRequests := [] }

/-- handleScroll: nextIndex = Math.round(offsetX / itemWidth); if it differs
from currentIndex, store it and invoke onSnap(nextIndex). -/
def handleScroll (cfg : Config) (offsetX : ℚ) (s : State) : State :=
  let nextIndex := jsRound (offsetX / cfg.itemWidth)
  if nextIndex ≠ s.currentIndex then
    { s with currentIndex := nextIndex, snaps := s.snaps ++ [nextIndex] }
  else
    s

/-- calculateItemOffsetStatic: index * itemWidth. -/
def calculateItemOffsetStatic (cfg : Config) (index : ℤ) : ℚ :=
  (index : ℚ) * cfg.itemWidth

/-- goToIndex: when loop is set, wrap the target as
(index + data.length) % data.length with the JS remainder; when the host
list ref is attached, request scrollToOffset at the computed pixel offset,
store the (possibly wrapped) index and invoke onSnap with it, all in the
same synchronous call; otherwise do nothing. -/
def goToIndex (cfg : Config) (index : ℤ) (s : State) : State :=
  let loopedIndex :=
    if cfg.loop then jsMod (index + (cfg.length : ℤ)) (cfg.length : ℤ) else index
  if cfg.refReady then
    { s with
      scrollRequests := s.scrollRequests ++ [calculateItemOffsetStatic cfg loopedIndex]
      currentIndex := loopedIndex
      snaps := s.snaps ++ [loopedIndex] }
  else
    s

/-- stopAutoplay: if autoplayRef.current is non-null, clearInterval it and
null the ref; otherwise do nothing. -/
def stopAutoplay (s : State) : State :=
  match s.autoplayRef with
  | some h => { s with autoplayRef := none, liveTimers := s.liveTimers.erase h }
  | none => s

/-- startAutoplay: if autoplayRef.current is already non-null, return without
doing anything; otherwise create a fresh interval timer and store its handle. -/
def startAutoplay (s : State) : State :=
  if s.autoplayRef.isSome then
    s
  else
    { s with
      autoplayRef := some s.nextHandle
      liveTimers := s.liveTimers ++ [s.nextHandle]
      nextHandle := s.nextHandle + 1 }

/-- The body of the interval callback installed by startAutoplay: with loop,
navigate to (currentIndex + 1) % data.length; without loop, stop the autoplay
when currentIndex + 1 would exceed data.length - 1, else navigate to
currentIndex + 1.  (The React effect recreates the interval whenever
currentIndex changes, so the index the callback reads is the current one.) -/
def autoplayTickBody (cfg : Config) (s : State) : State :=
  if cfg.loop then
    goToIndex cfg (jsMod (s.currentIndex + 1) (cfg.length : ℤ)) s
  else
    if s.currentIndex + 1 > (cfg.length : ℤ) - 1 then
      stopAutoplay s
    else
      goToIndex cfg (s.currentIndex + 1) s

/-- An interval with handle h elapses: its callback runs only if that timer
is still live (clearInterval prevents any later firing). -/
def timerFires (cfg : Config) (h : ℕ) (s : State) : State :=
  if h ∈ s.liveTimers then autoplayTickBody cfg s else s

/-- The autoplay useEffect body: start when the autoPlay prop is set,
stop otherwise.  The effect cleanup (teardown or reconfiguration) is
stopAutoplay itself. -/
def autoplayEffect (autoPlay : Bool) (s : State) : State :=
  if autoPlay then startAutoplay s else stopAutoplay s

/-- External triggers that drive the component. -/
inductive Event where
  | scroll (offset : ℚ)
  | navigate (target : ℤ)
  | effectRun (autoPlay : Bool)
  | unmount
  | timerTick (h : ℕ)
  deriving DecidableEq

/-- One step of the component under an external trigger. -/
def step (cfg : Config) (s : State) : Event → State
  | Event.scroll o => handleScroll cfg o s
  | Event.navigate t => goToIndex cfg t s
  | Event.effectRun b => autoplayEffect b s
  | Event.unmount => stopAutoplay s
  | Event.timerTick h => timerFires cfg h s

/-- Run a sequence of external triggers from the initial state. -/
def runEvents (cfg : Config) (evs : List Event) : State :=
  evs.foldl (step cfg) initState

/-- Run a sequence of scroll-offset updates through handleScroll. -/
def runScrolls (cfg : Config) (offs : List ℚ) (s : State) : State :=
  offs.foldl (fun st o => handleScroll cfg o st) s

/-- The current index lies in the valid range 0 .. length - 1. -/
def indexInRange (cfg : Config) (s : State) : Prop :=
  0 ≤ s.currentIndex ∧ s.currentIndex ≤ (cfg.length : ℤ) - 1

/-- Restrictions under which the range invariant is provable: scroll offsets
within the host list content bounds, and navigation only through the looping
path with target ≥ -length. -/
def safeEvent (cfg : Config) : Event → Prop
  | Event.scroll o => 0 ≤ o ∧ o ≤ ((cfg.length : ℤ) - 1 : ℤ) * cfg.itemWidth
  | Event.navigate t => cfg.loop = true ∧ -(cfg.length : ℤ) ≤ t
  | Event.effectRun _ => True
  | Event.unmount => True
  | Event.timerTick _ => True

/-- The live timers are exactly the one referenced by autoplayRef. -/
def timersConsistent (s : State) : Prop :=
  s.liveTimers = s.autoplayRef.toList

/-- reanimated interpolate over three increasing breakpoints x0 < x1 < x2
with outputs y0, y1, y2 and Extrapolation.CLAMP: piecewise linear inside
the range, constant at the nearest endpoint output outside it. -/
def interp3 (x0 x1 x2 y0 y1 y2 x : ℚ) : ℚ :=
  if x ≤ x0 then y0
  else if x ≤ x1 then y0 + (x - x0) * (y1 - y0) / (x1 - x0)
  else if x ≤ x2 then y1 + (x - x1) * (y2 - y1) / (x2 - x1)
  else y2

/-- The JS expression (inactiveScale ? inactiveScale : 0.8): an absent value
and the (falsy) value 0 both give the default 0.8. -/
def resolveInactiveScale : Option ℚ → ℚ
  | none => 8/10
  | some v => if v = 0 then 8/10 else v

/-- The inputs the layout-animation hooks read from ItemCarouselProps. -/
structure AnimInput where
  index : ℤ
  itemWidth : ℚ
  itemHeight : ℚ
  vertical : Bool
  inactiveScale : Option ℚ
  deriving DecidableEq

/-- The item extent along the active scroll axis:
(!data.vertical ? data.itemWidth : data.itemHeight). -/
def animExtent (d : AnimInput) : ℚ :=
  if d.vertical then d.itemHeight else d.itemWidth

/-- First breakpoint of the hooks inputRange: (index - 1) * extent. -/
def inputRange0 (d : AnimInput) : ℚ := ((d.index - 1 : ℤ) : ℚ) * animExtent d

/-- Second breakpoint of the hooks inputRange: index * extent. -/
def inputRange1 (d : AnimInput) : ℚ := (d.index : ℚ) * animExtent d

/-- Third breakpoint of the hooks inputRange: (index + 1) * extent. -/
def inputRange2 (d : AnimInput) : ℚ := ((d.index + 1 : ℤ) : ℚ) * animExtent d

/-- useLayoutDefaultAnimation opacity curve: outputs 0.8, 1, 0.8, clamped. -/
def layoutOpacity (d : AnimInput) (x : ℚ) : ℚ :=
  interp3 (inputRange0 d) (inputRange1 d) (inputRange2 d) (8/10) 1 (8/10) x

/-- useLayoutDefaultAnimation scale curve: outputs
(inactiveScale ? inactiveScale : 0.8), 1, same, clamped. -/
def layoutScale (d : AnimInput) (x : ℚ) : ℚ :=
  interp3 (inputRange0 d) (inputRange1 d) (inputRange2 d)
    (resolveInactiveScale d.inactiveScale) 1 (resolveInactiveScale d.inactiveScale) x

/-- useLayoutTinderAnimation translateX curve: outputs 100, 0, data.itemWidth
(always itemWidth, also for vertical carousels), clamped. -/
def tinderTranslateX (d : AnimInput) (x : ℚ) : ℚ :=
  interp3 (inputRange0 d) (inputRange1 d) (inputRange2 d) 100 0 d.itemWidth x

/-- useLayoutTinderAnimation translateY curve: outputs 30, 0, 0, clamped. -/
def tinderTranslateY (d : AnimInput) (x : ℚ) : ℚ :=
  interp3 (inputRange0 d) (inputRange1 d) (inputRange2 d) 30 0 0 x

/-- useLayoutTinderAnimation rotation curve in degrees: outputs 22, 0, 0, clamped. -/
def tinderRotateDeg (d : AnimInput) (x : ℚ) : ℚ :=
  interp3 (inputRange0 d) (inputRange1 d) (inputRange2 d) 22 0 0 x

/-- The scale curve of renderItemInternal in CarouselMomentum.tsx: same falsy
default for inactiveScale, breakpoints shifted by the centering offset. -/
def carouselItemScale (sliderWidth itemWidth : ℚ) (inactiveScale : Option ℚ)
    (index : ℤ) (x : ℚ) : ℚ :=
  let centerOffset := (sliderWidth - itemWidth) / 2
  interp3 (((index - 1 : ℤ) : ℚ) * itemWidth - centerOffset)
    ((index : ℚ) * itemWidth - centerOffset)
    (((index + 1 : ℤ) : ℚ) * itemWidth - centerOffset)
    (resolveInactiveScale inactiveScale) 1 (resolveInactiveScale inactiveScale) x

/-- Concrete animation input from the spec test vector for the Default
profile: index 2, horizontal with itemWidth 100, inactiveScale 0.8. -/
def sampleDefaultInput : AnimInput :=
  { index := 2, itemWidth := 100, itemHeight := 0, vertical := false
    inactiveScale := some (8/10) }

/-- Concrete animation input for a vertical carousel whose item height (the
active-axis extent) differs from its item width. -/
def sampleVerticalInput : AnimInput :=
  { index := 0, itemWidth := 100, itemHeight := 50, vertical := true
    inactiveScale := none }

/-- Spec-side wrap formula, for comparison with the code:
((target % length) + length) % length with the JS remainder. -/
def specWrapIndex (target : ℤ) (length : ℕ) : ℤ :=
  jsMod (jsMod target (length : ℤ) + (length : ℤ)) (length : ℤ)

/-- Spec-side snap sequence, for comparison with the code: starting from the
stored index, the snap callback fires exactly once per distinct consecutive
rounded index, in order, and never when the rounded index repeats. -/
def specSnapSequence (e : ℚ) : ℤ → List ℚ → List ℤ
  | _, [] => []
  | cur, o :: rest =>
    let n := jsRound (o / e)
    if n ≠ cur then n :: specSnapSequence e n rest
    else specSnapSequence e cur rest

/-! Arithmetic facts about the JS truncated remainder. -/

theorem tmod_gt_neg {t N : ℤ} (hN : 0 < N) : -N < Int.tmod t N := by
  rcases t with m | m
  · have h0 : (0 : ℤ) ≤ Int.tmod (Int.ofNat m) N := by
      rw [Int.ofNat_eq_natCast]
      exact Int.tmod_nonneg N (Int.ofNat_nonneg m)
    omega
  · rcases N with n | n
    · have hn : 0 < n := by
        rw [Int.ofNat_eq_natCast] at hN
        exact_mod_cast hN
      have h : Int.tmod (Int.negSucc m) (Int.ofNat n) = -(Int.ofNat ((m + 1) % n)) := rfl
      rw [h]
      have hlt : (m + 1) % n < n := Nat.mod_lt _ hn
      simp only [Int.ofNat_eq_natCast]
      omega
    · have h0 : Int.negSucc n < 0 := Int.negSucc_lt_zero n
      omega

theorem tmod_emod_self (t N : ℤ) : Int.tmod t N % N = t % N := by
  conv_rhs => rw [← Int.tmod_add_tdiv t N]
  rw [Int.add_mul_emod_self_left]

theorem specWrapIndex_eq_emod (t : ℤ) (N : ℕ) (hN : 1 ≤ N) :
    specWrapIndex t N = t % (N : ℤ) := by
  have hN0 : (0 : ℤ) < (N : ℤ) := by exact_mod_cast hN
  have h1 : -(N : ℤ) < Int.tmod t N := tmod_gt_neg hN0
  unfold specWrapIndex jsMod
  rw [Int.tmod_eq_emod (by omega) (by omega)]
  have h2 : (Int.tmod t (N : ℤ) + (N : ℤ)) % (N : ℤ) = Int.tmod t (N : ℤ) % (N : ℤ) := by
    simp
  rw [h2, tmod_emod_self]

theorem codeWrap_eq_emod (t : ℤ) (N : ℕ) (hN : 1 ≤ N) (ht : -(N : ℤ) ≤ t) :
    jsMod (t + (N : ℤ)) (N : ℤ) = t % (N : ℤ) := by
  have hN0 : (0 : ℤ) < (N : ℤ) := by exact_mod_cast hN
  unfold jsMod
  rw [Int.tmod_eq_emod (by omega) (by omega)]
  simp

/-- Claim C1 counterexample: with looping enabled, length 3 and target -5,
goToIndex stores index -2 (the code wraps via (target + length) % length with
the JS remainder), while the spec formula ((target % 3) + 3) % 3 gives 1. -/
theorem goToIndex_loop_neg_target_cex :
    (goToIndex { length := 3, itemWidth := 100, loop := true, refReady := true }
      (-5) initState).currentIndex = -2 ∧
    specWrapIndex (-5) 3 = 1 ∧ ((-2 : ℤ) ≠ 1) := by
  refine ⟨by decide, by decide, by decide⟩

/-- Claim C1 (amended): with looping enabled, length N ≥ 1 and the host list
ref attached, goToIndex with any target ≥ -N stores index
((target % N) + N) % N and invokes onSnap with that wrapped index; for
targets below -N the code wraps only once and can store a negative index. -/
theorem goToIndex_loop_wrap (cfg : Config) (s : State) (t : ℤ)
    (hl : cfg.loop = true) (hr : cfg.refReady = true) (hN : 1 ≤ cfg.length)
    (ht : -(cfg.length : ℤ) ≤ t) :
    (goToIndex cfg t s).currentIndex = specWrapIndex t cfg.length ∧
    (goToIndex cfg t s).snaps = s.snaps ++ [specWrapIndex t cfg.length] := by
  have hw : jsMod (t + (cfg.length : ℤ)) (cfg.length : ℤ) = specWrapIndex t cfg.length := by
    rw [codeWrap_eq_emod t cfg.length hN ht, specWrapIndex_eq_emod t cfg.length hN]
  unfold goToIndex
  simp only [hl, hr, if_true]
  exact ⟨hw, by rw [hw]⟩

/-- Witness for goToIndex_loop_wrap at length 3, target -1. -/
theorem goToIndex_loop_wrap_witness :
    (goToIndex { length := 3, itemWidth := 100, loop := true, refReady := true }
      (-1) initState).currentIndex = specWrapIndex (-1) 3 ∧
    (goToIndex { length := 3, itemWidth := 100, loop := true, refReady := true }
      (-1) initState).snaps = initState.snaps ++ [specWrapIndex (-1) 3] :=
  goToIndex_loop_wrap _ initState (-1) rfl rfl (by decide) (by decide)

theorem runScrolls_snaps (cfg : Config) (offs : List ℚ) :
    ∀ s : State, (runScrolls cfg offs s).snaps =
      s.snaps ++ specSnapSequence cfg.itemWidth s.currentIndex offs := by
  induction offs with
  | nil =>
    intro s
    simp [runScrolls, specSnapSequence]
  | cons o rest ih =>
    intro s
    have hrun : runScrolls cfg (o :: rest) s = runScrolls cfg rest (handleScroll cfg o s) := rfl
    rw [hrun, ih]
    by_cases h : jsRound (o / cfg.itemWidth) = s.currentIndex
    · have hs : handleScroll cfg o s = s := by simp [handleScroll, h]
      rw [hs]
      simp [specSnapSequence, h]
    · have h1 : (handleScroll cfg o s).snaps = s.snaps ++ [jsRound (o / cfg.itemWidth)] := by
        simp [handleScroll, h]
      have h2 : (handleScroll cfg o s).currentIndex = jsRound (o / cfg.itemWidth) := by
        simp [handleScroll, h]
      rw [h1, h2]
      simp [specSnapSequence, h]

/-- Claim C2: with item extent > 0, after a scroll update the tracked index is
round(offset / extent); onSnap fires on that update exactly when the rounded
index differs from the stored one, with the new index; and over any sequence
of scroll updates the onSnap history grows by exactly the sequence of distinct
consecutive rounded indices, in order. -/
theorem handleScroll_snap_spec (cfg : Config) (o : ℚ) (offs : List ℚ) (s : State)
    (hw : 0 < cfg.itemWidth) :
    (handleScroll cfg o s).currentIndex = jsRound (o / cfg.itemWidth) ∧
    (handleScroll cfg o s).snaps =
      s.snaps ++ (if jsRound (o / cfg.itemWidth) = s.currentIndex then []
        else [jsRound (o / cfg.itemWidth)]) ∧
    (runScrolls cfg offs s).snaps =
      s.snaps ++ specSnapSequence cfg.itemWidth s.currentIndex offs := by
  refine ⟨?_, ?_, runScrolls_snaps cfg offs s⟩
  · by_cases h : jsRound (o / cfg.itemWidth) = s.currentIndex
    · simp [handleScroll, h]
    · simp [handleScroll, h]
  · by_cases h : jsRound (o / cfg.itemWidth) = s.currentIndex
    · simp [handleScroll, h]
    · simp [handleScroll, h]

/-- Witness for handleScroll_snap_spec: extent 100, one update at offset 150,
then the update sequence 0, 40, 60, 260, 250. -/
theorem handleScroll_snap_spec_witness :
    (handleScroll { length := 3, itemWidth := 100, loop := false, refReady := true }
      150 initState).currentIndex = jsRound (150 / 100) ∧
    (handleScroll { length := 3, itemWidth := 100, loop := false, refReady := true }
      150 initState).snaps =
      initState.snaps ++ (if jsRound (150 / 100) = initState.currentIndex then []
        else [jsRound (150 / 100)]) ∧
    (runScrolls { length := 3, itemWidth := 100, loop := false, refReady := true }
      [0, 40, 60, 260, 250] initState).snaps =
      initState.snaps ++ specSnapSequence 100 initState.currentIndex [0, 40, 60, 260, 250] :=
  handleScroll_snap_spec _ 150 [0, 40, 60, 260, 250] initState (by norm_num)

/-- Claim C5: with looping disabled and the host list ref attached, goToIndex
passes any integer target through unchanged (no clamping): it requests a
scroll to target * itemWidth, stores the target as current index, and invokes
onSnap with the target in the same synchronous call, before any animated
scroll completion event. -/
theorem goToIndex_noloop_spec (cfg : Config) (t : ℤ) (s : State)
    (hl : cfg.loop = false) (hr : cfg.refReady = true) :
    (goToIndex cfg t s).currentIndex = t ∧
    (goToIndex cfg t s).scrollRequests = s.scrollRequests ++ [(t : ℚ) * cfg.itemWidth] ∧
    (goToIndex cfg t s).snaps = s.snaps ++ [t] := by
  unfold goToIndex calculateItemOffsetStatic
  simp [hl, hr]

/-- Witness for goToIndex_noloop_spec: length 5, out-of-range target 7. -/
theorem goToIndex_noloop_spec_witness :
    (goToIndex { length := 5, itemWidth := 100, loop := false, refReady := true }
      7 initState).currentIndex = 7 ∧
    (goToIndex { length := 5, itemWidth := 100, loop := false, refReady := true }
      7 initState).scrollRequests = initState.scrollRequests ++ [(7 : ℚ) *
      Config.itemWidth { length := 5, itemWidth := 100, loop := false, refReady := true }] ∧
    (goToIndex { length := 5, itemWidth := 100, loop := false, refReady := true }
      7 initState).snaps = initState.snaps ++ [7] :=
  goToIndex_noloop_spec _ 7 initState rfl rfl

theorem stopAutoplay_ref (s : State) : (stopAutoplay s).autoplayRef = none := by
  cases hopt : s.autoplayRef <;> simp [stopAutoplay, hopt]

theorem stopAutoplay_same_fields (s : State) :
    (stopAutoplay s).currentIndex = s.currentIndex ∧
    (stopAutoplay s).snaps = s.snaps ∧
    (stopAutoplay s).scrollRequests = s.scrollRequests := by
  cases hopt : s.autoplayRef <;> simp [stopAutoplay, hopt]

/-- Claim C3: an autoplay tick in the running state (live timer h, host list
ref attached, length ≥ 1, current index ≥ 0): with looping it navigates to
(currentIndex + 1) mod length and snaps there, keeping the timer; without
looping it clears the timer and does nothing else when currentIndex + 1 would
exceed length - 1, and otherwise navigates to currentIndex + 1 and snaps. -/
theorem autoplayTick_spec (cfg : Config) (s : State) (h : ℕ)
    (href : s.autoplayRef = some h) (hlive : s.liveTimers = [h])
    (hr : cfg.refReady = true) (hN : 1 ≤ cfg.length) (hcur : 0 ≤ s.currentIndex) :
    (cfg.loop = true →
      (timerFires cfg h s).currentIndex = (s.currentIndex + 1) % (cfg.length : ℤ) ∧
      (timerFires cfg h s).snaps = s.snaps ++ [(s.currentIndex + 1) % (cfg.length : ℤ)] ∧
      (timerFires cfg h s).liveTimers = s.liveTimers) ∧
    (cfg.loop = false → (cfg.length : ℤ) - 1 < s.currentIndex + 1 →
      (timerFires cfg h s).liveTimers = [] ∧
      (timerFires cfg h s).autoplayRef = none ∧
      (timerFires cfg h s).currentIndex = s.currentIndex ∧
      (timerFires cfg h s).snaps = s.snaps) ∧
    (cfg.loop = false → s.currentIndex + 1 ≤ (cfg.length : ℤ) - 1 →
      (timerFires cfg h s).currentIndex = s.currentIndex + 1 ∧
      (timerFires cfg h s).snaps = s.snaps ++ [s.currentIndex + 1]) := by
  have hN0 : (0 : ℤ) < (cfg.length : ℤ) := by exact_mod_cast hN
  have hmem : h ∈ s.liveTimers := by rw [hlive]; exact List.mem_singleton.mpr rfl
  have htf : timerFires cfg h s = autoplayTickBody cfg s := by
    unfold timerFires
    simp [hmem]
  refine ⟨?_, ?_, ?_⟩
  · intro hl
    have e1 : jsMod (s.currentIndex + 1) (cfg.length : ℤ) =
        (s.currentIndex + 1) % (cfg.length : ℤ) :=
      Int.tmod_eq_emod (by omega) (by omega)
    have h0 : 0 ≤ (s.currentIndex + 1) % (cfg.length : ℤ) :=
      Int.emod_nonneg _ (by omega)
    have e2 : jsMod ((s.currentIndex + 1) % (cfg.length : ℤ) + (cfg.length : ℤ))
        (cfg.length : ℤ) = (s.currentIndex + 1) % (cfg.length : ℤ) := by
      unfold jsMod
      rw [Int.tmod_eq_emod (by omega) (by omega)]
      have : ((s.currentIndex + 1) % (cfg.length : ℤ) + (cfg.length : ℤ)) % (cfg.length : ℤ) =
          (s.currentIndex + 1) % (cfg.length : ℤ) % (cfg.length : ℤ) := by
        simp
      rw [this, Int.emod_emod_of_dvd _ dvd_rfl]
    rw [htf]
    unfold autoplayTickBody goToIndex
    simp only [hl, hr, if_true, e1]
    simp [e2]
  · intro hl hend
    rw [htf]
    unfold autoplayTickBody
    simp only [hl, if_false, Bool.false_eq_true]
    rw [if_pos (by omega : s.currentIndex + 1 > (cfg.length : ℤ) - 1)]
    refine ⟨?_, stopAutoplay_ref s, (stopAutoplay_same_fields s).1, (stopAutoplay_same_fields s).2.1⟩
    simp [stopAutoplay, href, hlive]
  · intro hl hend
    rw [htf]
    unfold autoplayTickBody
    simp only [hl, if_false, Bool.false_eq_true]
    rw [if_neg (by omega : ¬ s.currentIndex + 1 > (cfg.length : ℤ) - 1)]
    unfold goToIndex
    simp [hl, hr]

/-- Witness for autoplayTick_spec: loop on, length 3, running at index 2. -/
theorem autoplayTick_spec_witness :
    (Config.loop { length := 3, itemWidth := 100, loop := true, refReady := true } = true →
      (timerFires { length := 3, itemWidth := 100, loop := true, refReady := true } 0
        { currentIndex := 2, autoplayRef := some 0, liveTimers := [0], nextHandle := 1,
          snaps := [], scrollRequests := [] }).currentIndex = (2 + 1) % (3 : ℤ) ∧
      (timerFires { length := 3, itemWidth := 100, loop := true, refReady := true } 0
        { currentIndex := 2, autoplayRef := some 0, liveTimers := [0], nextHandle := 1,
          snaps := [], scrollRequests := [] }).snaps = [] ++ [(2 + 1) % (3 : ℤ)] ∧
      (timerFires { length := 3, itemWidth := 100, loop := true, refReady := true } 0
        { currentIndex := 2, autoplayRef := some 0, liveTimers := [0], nextHandle := 1,
          snaps := [], scrollRequests := [] }).liveTimers = [0]) ∧
    (Config.loop { length := 3, itemWidth := 100, loop := true, refReady := true } = false →
      ((3 : ℕ) : ℤ) - 1 < 2 + 1 →
      (timerFires { length := 3, itemWidth := 100, loop := true, refReady := true } 0
        { currentIndex := 2, autoplayRef := some 0, liveTimers := [0], nextHandle := 1,
          snaps := [], scrollRequests := [] }).liveTimers = [] ∧
      (timerFires { length := 3, itemWidth := 100, loop := true, refReady := true } 0
        { currentIndex := 2, autoplayRef := some 0, liveTimers := [0], nextHandle := 1,
          snaps := [], scrollRequests := [] }).autoplayRef = none ∧
      (timerFires { length := 3, itemWidth := 100, loop := true, refReady := true } 0
        { currentIndex := 2, autoplayRef := some 0, liveTimers := [0], nextHandle := 1,
          snaps := [], scrollRequests := [] }).currentIndex = 2 ∧
      (timerFires { length := 3, itemWidth := 100, loop := true, refReady := true } 0
        { currentIndex := 2, autoplayRef := some 0, liveTimers := [0], nextHandle := 1,
          snaps := [], scrollRequests := [] }).snaps = []) ∧
    (Config.loop { length := 3, itemWidth := 100, loop := true, refReady := true } = false →
      2 + 1 ≤ ((3 : ℕ) : ℤ) - 1 →
      (timerFires { length := 3, itemWidth := 100, loop := true, refReady := true } 0
        { currentIndex := 2, autoplayRef := some 0, liveTimers := [0], nextHandle := 1,
          snaps := [], scrollRequests := [] }).currentIndex = 2 + 1 ∧
      (timerFires { length := 3, itemWidth := 100, loop := true, refReady := true } 0
        { currentIndex := 2, autoplayRef := some 0, liveTimers := [0], nextHandle := 1,
          snaps := [], scrollRequests := [] }).snaps = [] ++ [2 + 1]) :=
  autoplayTick_spec _ _ 0 rfl rfl rfl (by decide) (by decide)

theorem jsRound_nonneg {q : ℚ} (h : 0 ≤ q) : 0 ≤ jsRound q := by
  unfold jsRound
  rw [Int.le_floor]
  push_cast
  linarith

theorem jsRound_le {q : ℚ} {z : ℤ} (h : q ≤ (z : ℚ)) : jsRound q ≤ z := by
  unfold jsRound
  have hlt : ⌊q + 1/2⌋ < z + 1 := by
    rw [Int.floor_lt]
    push_cast
    linarith

  omega

theorem handleScroll_currentIndex (cfg : Config) (o : ℚ) (s : State) :
    (handleScroll cfg o s).currentIndex = jsRound (o / cfg.itemWidth) := by
  by_cases h : jsRound (o / cfg.itemWidth) = s.currentIndex <;> simp [handleScroll, h]

theorem startAutoplay_currentIndex (s : State) :
    (startAutoplay s).currentIndex = s.currentIndex := by
  unfold startAutoplay
  split <;> rfl

theorem goToIndex_loop_range (cfg : Config) (t : ℤ) (s : State)
    (hl : cfg.loop = true) (hN : 1 ≤ cfg.length) (ht : -(cfg.length : ℤ) ≤ t)
    (hs : indexInRange cfg s) : indexInRange cfg (goToIndex cfg t s) := by
  have hN0 : (0 : ℤ) < (cfg.length : ℤ) := by exact_mod_cast hN
  by_cases hr : cfg.refReady
  · have hidx : (goToIndex cfg t s).currentIndex = t % (cfg.length : ℤ) := by
      unfold goToIndex
      simp [hl, hr, codeWrap_eq_emod t cfg.length hN ht]
    refine ⟨?_, ?_⟩ <;> rw [hidx]
    · exact Int.emod_nonneg _ (by omega)
    · have := Int.emod_lt_of_pos t hN0
      omega
  · unfold goToIndex
    simp [hr]
    exact hs

theorem step_preserves_indexInRange (cfg : Config) (hw : 0 < cfg.itemWidth)
    (hN : 1 ≤ cfg.length) (s : State) (ev : Event)
    (hs : indexInRange cfg s) (hev : safeEvent cfg ev) :
    indexInRange cfg (step cfg s ev) := by
  have hN0 : (0 : ℤ) < (cfg.length : ℤ) := by exact_mod_cast hN
  cases ev with
  | scroll o =>
    obtain ⟨ho0, ho1⟩ := hev
    have hidx : (step cfg s (Event.scroll o)).currentIndex = jsRound (o / cfg.itemWidth) :=
      handleScroll_currentIndex cfg o s
    refine ⟨?_, ?_⟩ <;> rw [hidx]
    · exact jsRound_nonneg (div_nonneg ho0 (le_of_lt hw))
    · refine jsRound_le ((div_le_iff₀ hw).mpr ?_)
      push_cast
      push_cast at ho1
      linarith
  | navigate t =>
    obtain ⟨hl, ht⟩ := hev
    exact goToIndex_loop_range cfg t s hl hN ht hs
  | effectRun b =>
    cases b with
    | true =>
      show indexInRange cfg (startAutoplay s)
      unfold indexInRange
      rw [startAutoplay_currentIndex]
      exact hs
    | false =>
      show indexInRange cfg (stopAutoplay s)
      unfold indexInRange
      rw [(stopAutoplay_same_fields s).1]
      exact hs
  | unmount =>
    show indexInRange cfg (stopAutoplay s)
    unfold indexInRange
    rw [(stopAutoplay_same_fields s).1]
    exact hs
  | timerTick h =>
    show indexInRange cfg (timerFires cfg h s)
    unfold timerFires
    by_cases hmem : h ∈ s.liveTimers
    · simp only [hmem, if_true]
      unfold autoplayTickBody
      by_cases hl : cfg.loop
      · simp only [hl, if_true]
        have hx : -(cfg.length : ℤ) < jsMod (s.currentIndex + 1) (cfg.length : ℤ) :=
          tmod_gt_neg hN0
        exact goToIndex_loop_range cfg _ s hl hN (le_of_lt hx) hs
      · simp only [hl, if_false, Bool.false_eq_true]
        by_cases hend : s.currentIndex + 1 > (cfg.length : ℤ) - 1
        · rw [if_pos hend]
          unfold indexInRange
          rw [(stopAutoplay_same_fields s).1]
          exact hs
        · rw [if_neg hend]
          by_cases hr : cfg.refReady
          · have hidx : (goToIndex cfg (s.currentIndex + 1) s).currentIndex =
                s.currentIndex + 1 := by
              unfold goToIndex
              simp [hl, hr]
            refine ⟨?_, ?_⟩ <;> rw [hidx] <;> obtain ⟨hs0, hs1⟩ := hs <;> omega
          · unfold goToIndex
            simp [hr]
            exact hs
    · simp only [hmem, if_false]
      exact hs

/-- Claim C4 counterexample: with looping disabled and length 5, the
programmatic navigator accepts target 100 and stores it as current index, a
value outside the range 0 .. 4. -/
theorem index_range_cex :
    (goToIndex { length := 5, itemWidth := 100, loop := false, refReady := true }
      100 initState).currentIndex = 100 ∧
    ¬ indexInRange { length := 5, itemWidth := 100, loop := false, refReady := true }
      (goToIndex { length := 5, itemWidth := 100, loop := false, refReady := true }
        100 initState) := by
  constructor
  · decide
  · intro hcontra
    obtain ⟨_, h1⟩ := hcontra
    revert h1
    decide

/-- Claim C4 (amended): with item extent > 0 and length ≥ 1, the current
index stays in 0 .. length - 1 across any sequence of triggers in which
scroll offsets stay within the host list content bounds and all navigation
goes through the looping path with target ≥ -length; the non-looping
navigation path performs no clamping and can store any integer target. -/
theorem index_range_invariant (cfg : Config) (evs : List Event)
    (hw : 0 < cfg.itemWidth) (hN : 1 ≤ cfg.length)
    (hsafe : ∀ ev ∈ evs, safeEvent cfg ev) :
    indexInRange cfg (runEvents cfg evs) := by
  have hinit : indexInRange cfg initState := by
    constructor
    · exact le_refl 0
    · have : (1 : ℤ) ≤ (cfg.length : ℤ) := by exact_mod_cast hN
      simpa [initState] using by omega
  have main : ∀ (l : List Event) (s : State), indexInRange cfg s →
      (∀ ev ∈ l, safeEvent cfg ev) → indexInRange cfg (l.foldl (step cfg) s) := by
    intro l
    induction l with
    | nil => intro s hs _; exact hs
    | cons ev rest ih =>
      intro s hs hl
      have h1 : safeEvent cfg ev := hl ev (List.mem_cons_self ev rest)
      have h2 : ∀ e ∈ rest, safeEvent cfg e := fun e he => hl e (List.mem_cons_of_mem ev he)
      exact ih (step cfg s ev) (step_preserves_indexInRange cfg hw hN s ev hs h1) h2
  exact main evs initState hinit hsafe

/-- Witness for index_range_invariant: length 2, a scroll to offset 90, a
looping navigation to -1, an autoplay start and one tick. -/
theorem index_range_invariant_witness :
    indexInRange { length := 2, itemWidth := 100, loop := true, refReady := true }
      (runEvents { length := 2, itemWidth := 100, loop := true, refReady := true }
        [Event.scroll 90, Event.navigate (-1), Event.effectRun true, Event.timerTick 0]) :=
  index_range_invariant _ _ (by norm_num) (by decide)
    (by
      intro ev hev
      fin_cases hev <;> constructor <;> norm_num [safeEvent])

/-! Facts about the clamped three-point linear interpolation. -/

theorem interp3_left_clamp (x0 x1 x2 y0 y1 y2 x : ℚ) (h : x ≤ x0) :
    interp3 x0 x1 x2 y0 y1 y2 x = y0 := by
  unfold interp3
  rw [if_pos h]

theorem interp3_mid (x0 x1 x2 y0 y1 y2 : ℚ) (h01 : x0 < x1) :
    interp3 x0 x1 x2 y0 y1 y2 x1 = y1 := by
  have hne : x1 - x0 ≠ 0 := ne_of_gt (sub_pos.mpr h01)
  unfold interp3
  rw [if_neg (by linarith), if_pos (le_refl x1)]
  field_simp

theorem interp3_right_clamp (x0 x1 x2 y0 y1 y2 x : ℚ) (h01 : x0 < x1)
    (h12 : x1 < x2) (h : x2 ≤ x) :
    interp3 x0 x1 x2 y0 y1 y2 x = y2 := by
  have hne : x2 - x1 ≠ 0 := ne_of_gt (sub_pos.mpr h12)
  unfold interp3
  rw [if_neg (by linarith), if_neg (by linarith)]
  by_cases hx : x ≤ x2
  · rw [if_pos hx]
    have hx2 : x = x2 := le_antisymm hx h
    rw [hx2]
    field_simp
  · rw [if_neg hx]

theorem interp3_seg1 (x0 x1 x2 y0 y1 y2 t : ℚ) (hx : x0 < x1)
    (ht0 : 0 ≤ t) (ht1 : t ≤ 1) :
    interp3 x0 x1 x2 y0 y1 y2 ((1 - t) * x0 + t * x1) = (1 - t) * y0 + t * y1 := by
  rcases eq_or_lt_of_le ht0 with h | h
  · rw [← h]
    rw [show (1 - (0 : ℚ)) * x0 + 0 * x1 = x0 by ring]
    rw [interp3_left_clamp _ _ _ _ _ _ _ (le_refl x0)]
    ring
  · have hne : x1 - x0 ≠ 0 := ne_of_gt (sub_pos.mpr hx)
    have hb0 : ¬ ((1 - t) * x0 + t * x1 ≤ x0) := by nlinarith
    have hb1 : (1 - t) * x0 + t * x1 ≤ x1 := by nlinarith
    unfold interp3
    rw [if_neg hb0, if_pos hb1]
    field_simp
    ring

theorem interp3_seg2 (x0 x1 x2 y0 y1 y2 t : ℚ) (h01 : x0 < x1) (h12 : x1 < x2)
    (ht0 : 0 ≤ t) (ht1 : t ≤ 1) :
    interp3 x0 x1 x2 y0 y1 y2 ((1 - t) * x1 + t * x2) = (1 - t) * y1 + t * y2 := by
  have hne : x1 - x0 ≠ 0 := ne_of_gt (sub_pos.mpr h01)
  rcases eq_or_lt_of_le ht0 with h | h
  · rw [← h]
    rw [show (1 - (0 : ℚ)) * x1 + 0 * x2 = x1 by ring]
    rw [interp3_mid _ _ _ _ _ _ h01]
    ring
  · have hne2 : x2 - x1 ≠ 0 := ne_of_gt (sub_pos.mpr h12)
    have hb0 : ¬ ((1 - t) * x1 + t * x2 ≤ x0) := by nlinarith
    have hb1 : ¬ ((1 - t) * x1 + t * x2 ≤ x1) := by nlinarith
    have hb2 : (1 - t) * x1 + t * x2 ≤ x2 := by nlinarith
    unfold interp3
    rw [if_neg hb0, if_neg hb1, if_pos hb2]
    field_simp
    ring

theorem inputRange_strict_mono (d : AnimInput) (hd : 0 < animExtent d) :
    inputRange0 d < inputRange1 d ∧ inputRange1 d < inputRange2 d := by
  have h01 : inputRange1 d - inputRange0 d = animExtent d := by
    unfold inputRange0 inputRange1
    push_cast
    ring
  have h12 : inputRange2 d - inputRange1 d = animExtent d := by
    unfold inputRange1 inputRange2
    push_cast
    ring
  constructor <;> linarith

/-- Claim C6: for the Default profile the opacity and scale curves are linear
interpolations over the breakpoints (index-1)*extent, index*extent,
(index+1)*extent with outputs 0.8, 1, 0.8 for opacity and s, 1, s for scale
(s the resolved inactive scale), clamped outside the breakpoint range; and
with index 2, extent 100, inactiveScale 0.8: offset 200 gives scale and
opacity 1, offsets 100 and 300 give 0.8, and offset 50 gives the clamped 0.8. -/
theorem defaultAnimation_spec (d : AnimInput) (x t : ℚ) (hd : 0 < animExtent d) :
    (x ≤ inputRange0 d →
      layoutOpacity d x = 8/10 ∧ layoutScale d x = resolveInactiveScale d.inactiveScale) ∧
    (inputRange2 d ≤ x →
      layoutOpacity d x = 8/10 ∧ layoutScale d x = resolveInactiveScale d.inactiveScale) ∧
    layoutOpacity d (inputRange1 d) = 1 ∧
    layoutScale d (inputRange1 d) = 1 ∧
    (0 ≤ t → t ≤ 1 →
      layoutOpacity d ((1 - t) * inputRange0 d + t * inputRange1 d) =
        (1 - t) * (8/10) + t * 1 ∧
      layoutOpacity d ((1 - t) * inputRange1 d + t * inputRange2 d) =
        (1 - t) * 1 + t * (8/10) ∧
      layoutScale d ((1 - t) * inputRange0 d + t * inputRange1 d) =
        (1 - t) * resolveInactiveScale d.inactiveScale + t * 1 ∧
      layoutScale d ((1 - t) * inputRange1 d + t * inputRange2 d) =
        (1 - t) * 1 + t * resolveInactiveScale d.inactiveScale) ∧
    layoutOpacity sampleDefaultInput 200 = 1 ∧
    layoutScale sampleDefaultInput 200 = 1 ∧
    layoutOpacity sampleDefaultInput 100 = 8/10 ∧
    layoutScale sampleDefaultInput 100 = 8/10 ∧
    layoutOpacity sampleDefaultInput 300 = 8/10 ∧
    layoutScale sampleDefaultInput 300 = 8/10 ∧
    layoutScale sampleDefaultInput 50 = 8/10 := by
  obtain ⟨h01, h12⟩ := inputRange_strict_mono d hd
  refine ⟨?_, ?_, ?_, ?_, ?_, ?_, ?_, ?_, ?_, ?_, ?_, ?_⟩
  · intro hx
    exact ⟨interp3_left_clamp _ _ _ _ _ _ _ hx, interp3_left_clamp _ _ _ _ _ _ _ hx⟩
  · intro hx
    exact ⟨interp3_right_clamp _ _ _ _ _ _ _ h01 h12 hx,
      interp3_right_clamp _ _ _ _ _ _ _ h01 h12 hx⟩
  · exact interp3_mid _ _ _ _ _ _ h01
  · exact interp3_mid _ _ _ _ _ _ h01
  · intro ht0 ht1
    exact ⟨interp3_seg1 _ _ _ _ _ _ _ h01 ht0 ht1, interp3_seg2 _ _ _ _ _ _ _ h01 h12 ht0 ht1,
      interp3_seg1 _ _ _ _ _ _ _ h01 ht0 ht1, interp3_seg2 _ _ _ _ _ _ _ h01 h12 ht0 ht1⟩
  · norm_num [layoutOpacity, interp3, inputRange0, inputRange1, inputRange2, animExtent,
      sampleDefaultInput]
  · norm_num [layoutScale, interp3, inputRange0, inputRange1, inputRange2, animExtent,
      resolveInactiveScale, sampleDefaultInput]
  · norm_num [layoutOpacity, interp3, inputRange0, inputRange1, inputRange2, animExtent,
      sampleDefaultInput]
  · norm_num [layoutScale, interp3, inputRange0, inputRange1, inputRange2, animExtent,
      resolveInactiveScale, sampleDefaultInput]
  · norm_num [layoutOpacity, interp3, inputRange0, inputRange1, inputRange2, animExtent,
      sampleDefaultInput]
  · norm_num [layoutScale, interp3, inputRange0, inputRange1, inputRange2, animExtent,
      resolveInactiveScale, sampleDefaultInput]
  · norm_num [layoutScale, interp3, inputRange0, inputRange1, inputRange2, animExtent,
      resolveInactiveScale, sampleDefaultInput]

/-- Witness for defaultAnimation_spec at index 2, extent 100, x = 150, t = 1/2. -/
theorem defaultAnimation_spec_witness :
    ((150 : ℚ) ≤ inputRange0 sampleDefaultInput →
      layoutOpacity sampleDefaultInput 150 = 8/10 ∧
      layoutScale sampleDefaultInput 150 =
        resolveInactiveScale sampleDefaultInput.inactiveScale) ∧
    (inputRange2 sampleDefaultInput ≤ (150 : ℚ) →
      layoutOpacity sampleDefaultInput 150 = 8/10 ∧
      layoutScale sampleDefaultInput 150 =
        resolveInactiveScale sampleDefaultInput.inactiveScale) ∧
    layoutOpacity sampleDefaultInput (inputRange1 sampleDefaultInput) = 1 ∧
    layoutScale sampleDefaultInput (inputRange1 sampleDefaultInput) = 1 ∧
    ((0 : ℚ) ≤ 1/2 → (1 : ℚ)/2 ≤ 1 →
      layoutOpacity sampleDefaultInput ((1 - 1/2) * inputRange0 sampleDefaultInput +
        1/2 * inputRange1 sampleDefaultInput) = (1 - 1/2) * (8/10) + 1/2 * 1 ∧
      layoutOpacity sampleDefaultInput ((1 - 1/2) * inputRange1 sampleDefaultInput +
        1/2 * inputRange2 sampleDefaultInput) = (1 - 1/2) * 1 + 1/2 * (8/10) ∧
      layoutScale sampleDefaultInput ((1 - 1/2) * inputRange0 sampleDefaultInput +
        1/2 * inputRange1 sampleDefaultInput) =
        (1 - 1/2) * resolveInactiveScale sampleDefaultInput.inactiveScale + 1/2 * 1 ∧
      layoutScale sampleDefaultInput ((1 - 1/2) * inputRange1 sampleDefaultInput +
        1/2 * inputRange2 sampleDefaultInput) =
        (1 - 1/2) * 1 + 1/2 * resolveInactiveScale sampleDefaultInput.inactiveScale) ∧
    layoutOpacity sampleDefaultInput 200 = 1 ∧
    layoutScale sampleDefaultInput 200 = 1 ∧
    layoutOpacity sampleDefaultInput 100 = 8/10 ∧
    layoutScale sampleDefaultInput 100 = 8/10 ∧
    layoutOpacity sampleDefaultInput 300 = 8/10 ∧
    layoutScale sampleDefaultInput 300 = 8/10 ∧
    layoutScale sampleDefaultInput 50 = 8/10 :=
  defaultAnimation_spec sampleDefaultInput 150 (1/2)
    (by norm_num [animExtent, sampleDefaultInput])

/-- Claim C9 counterexample: on a vertical carousel with itemWidth 100 and
itemHeight 50, the Tinder translateX curve outputs 100 (data.itemWidth) at
the third breakpoint, not the 50 that is the extent along the active scroll
axis. -/
theorem tinder_translateX_vertical_cex :
    tinderTranslateX sampleVerticalInput (inputRange2 sampleVerticalInput) = 100 ∧
    animExtent sampleVerticalInput = 50 ∧ ((100 : ℚ) ≠ 50) := by
  refine ⟨?_, by norm_num [animExtent, sampleVerticalInput], by norm_num⟩
  norm_num [tinderTranslateX, interp3, inputRange0, inputRange1, inputRange2,
    animExtent, sampleVerticalInput]

/-- Claim C9 (amended): the Tinder profile adds, over the breakpoints
(index-1)*extent, index*extent, (index+1)*extent (extent along the active
scroll axis), a translateX interpolating 100, 0, itemWidth (always the item
width, also for vertical carousels), a translateY interpolating 30, 0, 0 and
a rotation in degrees interpolating 22, 0, 0, all clamped; translateY and
rotation take the same value at the current and next breakpoints (and on the
whole segment between them) and differ only on the previous side. -/
theorem tinderAnimation_spec (d : AnimInput) (x t : ℚ) (hd : 0 < animExtent d) :
    (x ≤ inputRange0 d →
      tinderTranslateX d x = 100 ∧ tinderTranslateY d x = 30 ∧ tinderRotateDeg d x = 22) ∧
    (tinderTranslateX d (inputRange1 d) = 0 ∧ tinderTranslateY d (inputRange1 d) = 0 ∧
      tinderRotateDeg d (inputRange1 d) = 0) ∧
    (inputRange2 d ≤ x →
      tinderTranslateX d x = d.itemWidth ∧ tinderTranslateY d x = 0 ∧
      tinderRotateDeg d x = 0) ∧
    tinderTranslateY d (inputRange1 d) = tinderTranslateY d (inputRange2 d) ∧
    tinderRotateDeg d (inputRange1 d) = tinderRotateDeg d (inputRange2 d) ∧
    (0 ≤ t → t ≤ 1 →
      tinderTranslateX d ((1 - t) * inputRange0 d + t * inputRange1 d) = (1 - t) * 100 ∧
      tinderTranslateY d ((1 - t) * inputRange0 d + t * inputRange1 d) = (1 - t) * 30 ∧
      tinderRotateDeg d ((1 - t) * inputRange0 d + t * inputRange1 d) = (1 - t) * 22 ∧
      tinderTranslateX d ((1 - t) * inputRange1 d + t * inputRange2 d) = t * d.itemWidth ∧
      tinderTranslateY d ((1 - t) * inputRange1 d + t * inputRange2 d) = 0 ∧
      tinderRotateDeg d ((1 - t) * inputRange1 d + t * inputRange2 d) = 0) := by
  obtain ⟨h01, h12⟩ := inputRange_strict_mono d hd
  refine ⟨?_, ?_, ?_, ?_, ?_, ?_⟩
  · intro hx
    exact ⟨interp3_left_clamp _ _ _ _ _ _ _ hx, interp3_left_clamp _ _ _ _ _ _ _ hx,
      interp3_left_clamp _ _ _ _ _ _ _ hx⟩
  · exact ⟨interp3_mid _ _ _ _ _ _ h01, interp3_mid _ _ _ _ _ _ h01,
      interp3_mid _ _ _ _ _ _ h01⟩
  · intro hx
    exact ⟨interp3_right_clamp _ _ _ _ _ _ _ h01 h12 hx,
      interp3_right_clamp _ _ _ _ _ _ _ h01 h12 hx,
      interp3_right_clamp _ _ _ _ _ _ _ h01 h12 hx⟩
  · unfold tinderTranslateY
    rw [interp3_mid _ _ _ _ _ _ h01,
      interp3_right_clamp _ _ _ _ _ _ _ h01 h12 (le_refl _)]
  · unfold tinderRotateDeg
    rw [interp3_mid _ _ _ _ _ _ h01,
      interp3_right_clamp _ _ _ _ _ _ _ h01 h12 (le_refl _)]
  · intro ht0 ht1
    refine ⟨?_, ?_, ?_, ?_, ?_, ?_⟩
    · unfold tinderTranslateX
      rw [interp3_seg1 _ _ _ _ _ _ _ h01 ht0 ht1]
      ring
    · unfold tinderTranslateY
      rw [interp3_seg1 _ _ _ _ _ _ _ h01 ht0 ht1]
      ring
    · unfold tinderRotateDeg
      rw [interp3_seg1 _ _ _ _ _ _ _ h01 ht0 ht1]
      ring
    · unfold tinderTranslateX
      rw [interp3_seg2 _ _ _ _ _ _ _ h01 h12 ht0 ht1]
      ring
    · unfold tinderTranslateY
      rw [interp3_seg2 _ _ _ _ _ _ _ h01 h12 ht0 ht1]
      ring
    · unfold tinderRotateDeg
      rw [interp3_seg2 _ _ _ _ _ _ _ h01 h12 ht0 ht1]
      ring

/-- Witness for tinderAnimation_spec on the vertical input at x = 10, t = 1/3. -/
theorem tinderAnimation_spec_witness :
    ((10 : ℚ) ≤ inputRange0 sampleVerticalInput →
      tinderTranslateX sampleVerticalInput 10 = 100 ∧
      tinderTranslateY sampleVerticalInput 10 = 30 ∧
      tinderRotateDeg sampleVerticalInput 10 = 22) ∧
    (tinderTranslateX sampleVerticalInput (inputRange1 sampleVerticalInput) = 0 ∧
      tinderTranslateY sampleVerticalInput (inputRange1 sampleVerticalInput) = 0 ∧
      tinderRotateDeg sampleVerticalInput (inputRange1 sampleVerticalInput) = 0) ∧
    (inputRange2 sampleVerticalInput ≤ (10 : ℚ) →
      tinderTranslateX sampleVerticalInput 10 = sampleVerticalInput.itemWidth ∧
      tinderTranslateY sampleVerticalInput 10 = 0 ∧
      tinderRotateDeg sampleVerticalInput 10 = 0) ∧
    tinderTranslateY sampleVerticalInput (inputRange1 sampleVerticalInput) =
      tinderTranslateY sampleVerticalInput (inputRange2 sampleVerticalInput) ∧
    tinderRotateDeg sampleVerticalInput (inputRange1 sampleVerticalInput) =
      tinderRotateDeg sampleVerticalInput (inputRange2 sampleVerticalInput) ∧
    ((0 : ℚ) ≤ 1/3 → (1 : ℚ)/3 ≤ 1 →
      tinderTranslateX sampleVerticalInput ((1 - 1/3) * inputRange0 sampleVerticalInput +
        1/3 * inputRange1 sampleVerticalInput) = (1 - 1/3) * 100 ∧
      tinderTranslateY sampleVerticalInput ((1 - 1/3) * inputRange0 sampleVerticalInput +
        1/3 * inputRange1 sampleVerticalInput) = (1 - 1/3) * 30 ∧
      tinderRotateDeg sampleVerticalInput ((1 - 1/3) * inputRange0 sampleVerticalInput +
        1/3 * inputRange1 sampleVerticalInput) = (1 - 1/3) * 22 ∧
      tinderTranslateX sampleVerticalInput ((1 - 1/3) * inputRange1 sampleVerticalInput +
        1/3 * inputRange2 sampleVerticalInput) = 1/3 * sampleVerticalInput.itemWidth ∧
      tinderTranslateY sampleVerticalInput ((1 - 1/3) * inputRange1 sampleVerticalInput +
        1/3 * inputRange2 sampleVerticalInput) = 0 ∧
      tinderRotateDeg sampleVerticalInput ((1 - 1/3) * inputRange1 sampleVerticalInput +
        1/3 * inputRange2 sampleVerticalInput) = 0) :=
  tinderAnimation_spec sampleVerticalInput 10 (1/3)
    (by norm_num [animExtent, sampleVerticalInput])

/-- Claim C10: supplying inactiveScale = 0 is treated like supplying nothing,
because the implementation replaces any falsy inactiveScale with 0.8: the
resolved value is 0.8, the hook scale curve with 0 equals the one with 0.8
everywhere and takes 0.8 (not 0) at the off-center breakpoint, and the
carousel-level item scale curve with 0 equals the one with 0.8. -/
theorem inactiveScale_zero_default (d : AnimInput) (x sliderWidth itemWidth : ℚ)
    (i : ℤ) (h0 : d.inactiveScale = some 0) :
    resolveInactiveScale (some 0) = 8/10 ∧
    layoutScale d x = layoutScale { d with inactiveScale := some (8/10) } x ∧
    layoutScale d (inputRange0 d) = 8/10 ∧
    carouselItemScale sliderWidth itemWidth (some 0) i x =
      carouselItemScale sliderWidth itemWidth (some (8/10)) i x := by
  have hres : resolveInactiveScale (some 0) = 8/10 := by
    norm_num [resolveInactiveScale]
  have hres8 : resolveInactiveScale (some (8/10)) = 8/10 := by
    norm_num [resolveInactiveScale]
  refine ⟨hres, ?_, ?_, ?_⟩
  · unfold layoutScale
    rw [h0]
    simp [inputRange0, inputRange1, inputRange2, animExtent, hres, hres8]
  · unfold layoutScale
    rw [interp3_left_clamp _ _ _ _ _ _ _ (le_refl _), h0, hres]
  · simp [carouselItemScale, hres, hres8]

/-- Witness for inactiveScale_zero_default at index 1, itemWidth 100,
inactiveScale 0, x = 120. -/
theorem inactiveScale_zero_default_witness :
    resolveInactiveScale (some 0) = 8/10 ∧
    layoutScale { index := 1, itemWidth := 100, itemHeight := 0, vertical := false, inactiveScale := some 0 } 120 =
      layoutScale { index := 1, itemWidth := 100, itemHeight := 0, vertical := false, inactiveScale := some (8/10) } 120 ∧
    layoutScale { index := 1, itemWidth := 100, itemHeight := 0, vertical := false, inactiveScale := some 0 }
      (inputRange0 { index := 1, itemWidth := 100, itemHeight := 0, vertical := false, inactiveScale := some 0 }) = 8/10 ∧
    carouselItemScale 300 100 (some 0) 1 120 = carouselItemScale 300 100 (some (8/10)) 1 120 :=
  inactiveScale_zero_default _ 120 300 100 1 rfl

theorem handleScroll_timer_fields (cfg : Config) (o : ℚ) (s : State) :
    (handleScroll cfg o s).liveTimers = s.liveTimers ∧
    (handleScroll cfg o s).autoplayRef = s.autoplayRef := by
  by_cases h : jsRound (o / cfg.itemWidth) = s.currentIndex <;> simp [handleScroll, h]

theorem goToIndex_timer_fields (cfg : Config) (t : ℤ) (s : State) :
    (goToIndex cfg t s).liveTimers = s.liveTimers ∧
    (goToIndex cfg t s).autoplayRef = s.autoplayRef := by
  unfold goToIndex
  by_cases h : cfg.refReady <;> simp [h]

theorem startAutoplay_timersConsistent (s : State) (hs : timersConsistent s) :
    timersConsistent (startAutoplay s) := by
  unfold timersConsistent at *
  unfold startAutoplay
  by_cases h : s.autoplayRef.isSome
  · simp only [h, if_true]
    exact hs
  · have hnone : s.autoplayRef = none := by
      cases hopt : s.autoplayRef
      · rfl
      · rw [hopt] at h
        simp at h
    rw [hnone] at hs
    simp at hs
    simp [h, hs]

theorem stopAutoplay_timersConsistent (s : State) (hs : timersConsistent s) :
    timersConsistent (stopAutoplay s) := by
  unfold timersConsistent at *
  cases hopt : s.autoplayRef with
  | none =>
    rw [hopt] at hs
    simp at hs
    simp [stopAutoplay, hopt, hs]
  | some k =>
    rw [hopt] at hs
    simp at hs
    simp [stopAutoplay, hopt, hs]

theorem step_preserves_timersConsistent (cfg : Config) (s : State) (ev : Event)
    (hs : timersConsistent s) : timersConsistent (step cfg s ev) := by
  cases ev with
  | scroll o =>
    show timersConsistent (handleScroll cfg o s)
    unfold timersConsistent
    rw [(handleScroll_timer_fields cfg o s).1, (handleScroll_timer_fields cfg o s).2]
    exact hs
  | navigate t =>
    show timersConsistent (goToIndex cfg t s)
    unfold timersConsistent
    rw [(goToIndex_timer_fields cfg t s).1, (goToIndex_timer_fields cfg t s).2]
    exact hs
  | effectRun b =>
    cases b with
    | true => exact startAutoplay_timersConsistent s hs
    | false => exact stopAutoplay_timersConsistent s hs
  | unmount => exact stopAutoplay_timersConsistent s hs
  | timerTick h =>
    show timersConsistent (timerFires cfg h s)
    unfold timerFires
    by_cases hmem : h ∈ s.liveTimers
    · simp only [hmem, if_true]
      unfold autoplayTickBody
      by_cases hl : cfg.loop
      · simp only [hl, if_true]
        unfold timersConsistent
        rw [(goToIndex_timer_fields cfg _ s).1, (goToIndex_timer_fields cfg _ s).2]
        exact hs
      · simp only [hl, if_false, Bool.false_eq_true]
        by_cases hend : s.currentIndex + 1 > (cfg.length : ℤ) - 1
        · rw [if_pos hend]
          exact stopAutoplay_timersConsistent s hs
        · rw [if_neg hend]
          unfold timersConsistent
          rw [(goToIndex_timer_fields cfg _ s).1, (goToIndex_timer_fields cfg _ s).2]
          exact hs
    · simp only [hmem, if_false]
      exact hs

theorem runEvents_timersConsistent (cfg : Config) (evs : List Event) :
    timersConsistent (runEvents cfg evs) := by
  have main : ∀ (l : List Event) (s : State), timersConsistent s →
      timersConsistent (l.foldl (step cfg) s) := by
    intro l
    induction l with
    | nil => intro s hs; exact hs
    | cons ev rest ih =>
      intro s hs
      exact ih _ (step_preserves_timersConsistent cfg s ev hs)
  exact main evs initState rfl

/-- Claim C7: in every reachable state at most one autoplay timer is live,
and calling startAutoplay while a timer is already referenced returns the
state unchanged (same handle, no second timer created). -/
theorem autoplay_single_timer (cfg : Config) (evs : List Event) :
    (runEvents cfg evs).liveTimers.length ≤ 1 ∧
    (∀ s : State, s.autoplayRef.isSome = true → startAutoplay s = s) := by
  constructor
  · have h := runEvents_timersConsistent cfg evs
    unfold timersConsistent at h
    rw [h]
    cases (runEvents cfg evs).autoplayRef <;> simp
  · intro s hs
    unfold startAutoplay
    simp [hs]

/-- Witness for autoplay_single_timer: two consecutive starts, and an
explicit state already holding timer handle 7. -/
theorem autoplay_single_timer_witness :
    (runEvents { length := 3, itemWidth := 100, loop := true, refReady := true }
      [Event.effectRun true, Event.effectRun true]).liveTimers.length ≤ 1 ∧
    startAutoplay { currentIndex := 0, autoplayRef := some 7, liveTimers := [7], nextHandle := 8, snaps := [], scrollRequests := [] } =
      { currentIndex := 0, autoplayRef := some 7, liveTimers := [7], nextHandle := 8, snaps := [], scrollRequests := [] } :=
  ⟨(autoplay_single_timer { length := 3, itemWidth := 100, loop := true, refReady := true }
      [Event.effectRun true, Event.effectRun true]).1,
    (autoplay_single_timer { length := 3, itemWidth := 100, loop := true, refReady := true }
      []).2 _ rfl⟩

/-- Claim C8: from any reachable state, disabling autoplay (or the teardown
cleanup, which runs the same stopAutoplay) leaves no live timer and a null
ref, and a later elapse of any interval handle h changes nothing: no
navigation, no snap, no state change at all. -/
theorem autoplay_stop_clears (cfg : Config) (evs : List Event) (h : ℕ) :
    (stopAutoplay (runEvents cfg evs)).liveTimers = [] ∧
    (stopAutoplay (runEvents cfg evs)).autoplayRef = none ∧
    timerFires cfg h (stopAutoplay (runEvents cfg evs)) = stopAutoplay (runEvents cfg evs) := by
  have hc := runEvents_timersConsistent cfg evs
  have h1 : (stopAutoplay (runEvents cfg evs)).liveTimers = [] := by
    unfold timersConsistent at hc
    cases hopt : (runEvents cfg evs).autoplayRef with
    | none =>
      rw [hopt] at hc
      simp at hc
      simp [stopAutoplay, hopt, hc]
    | some k =>
      rw [hopt] at hc
      simp at hc
      simp [stopAutoplay, hopt, hc]
  refine ⟨h1, stopAutoplay_ref _, ?_⟩
  unfold timerFires
  rw [h1]
  simp

end Carousel
